import Mathlib

/-!
Verification of the pyprland protocol clients.

Shallow embedding of the two Rust client programs:
  * `src/client/pypr-client.rs`  (structured request/response client, function `run`)
  * `src/client/pypr-rs/src/main.rs`  (legacy write-only client, function `main`)

Rust strings are modelled as `List Char`; Rust `String::len` (UTF-8 byte
count) is modelled by `utf8Len`.  Process effects (environment reads,
socket operations) are made explicit as an `Effect` trace, and the
transport layer is an oracle parameter, so the purely local control flow
of the client is a total function.
-/

namespace Pypr

/-- UTF-8 encoded size in bytes of one character (mirrors Rust `char::len_utf8`). -/
def charUtf8Size (c : Char) : Nat :=
  if c.toNat < 0x80 then 1
  else if c.toNat < 0x800 then 2
  else if c.toNat < 0x10000 then 3
  else 4

/-- Byte length of a string (mirrors Rust `str::len`, UTF-8 bytes). -/
def utf8Len (s : List Char) : Nat :=
  (s.map charUtf8Size).sum

/-- Unicode White_Space property, as used by Rust `char::is_whitespace`. -/
def isRustWhitespace (c : Char) : Bool :=
  let n := c.toNat
  decide (0x09 ≤ n ∧ n ≤ 0x0D) || n == 0x20 || n == 0x85 || n == 0xA0 ||
  n == 0x1680 || decide (0x2000 ≤ n ∧ n ≤ 0x200A) || n == 0x2028 ||
  n == 0x2029 || n == 0x202F || n == 0x205F || n == 0x3000

/-- Rust `str::strip_prefix`: returns the remainder when `p` is a leading
segment of `s`, and `none` otherwise. -/
def stripPfx : List Char → List Char → Option (List Char)
  | [], s => some s
  | _ :: _, [] => none
  | p :: ps, c :: cs => if p = c then stripPfx ps cs else none

/-- Rust `str::starts_with`. -/
def startsWith (p s : List Char) : Bool :=
  (stripPfx p s).isSome

/-- Rust `str::trim_start`: drop leading Unicode whitespace. -/
def trimStart (s : List Char) : List Char :=
  s.dropWhile isRustWhitespace

/-- Rust `str::trim_end`: drop trailing Unicode whitespace. -/
def trimEnd (s : List Char) : List Char :=
  (s.reverse.dropWhile isRustWhitespace).reverse

/-- Rust `str::trim_end_matches('\n')`: drop trailing newline characters only. -/
def trimEndMatchesNL (s : List Char) : List Char :=
  (s.reverse.dropWhile (fun c => c == '\n')).reverse

/-- Rust `[String]::join(sep)`: concatenate with `sep` between elements. -/
def rustJoin (sep : List Char) : List (List Char) → List Char
  | [] => []
  | [x] => x
  | x :: y :: rest => x ++ sep ++ rustJoin sep (y :: rest)

/-- Naive substring test: does `needle` occur contiguously inside `hay`? -/
def containsSeq (needle : List Char) : List Char → Bool
  | [] => needle.isEmpty
  | c :: rest => startsWith needle (c :: rest) || containsSeq needle rest

/-! Exit codes from `pypr-client.rs`, matching `pyprland/models.py ExitCode`. -/

def EXIT_SUCCESS : Nat := 0
def EXIT_USAGE_ERROR : Nat := 1
def EXIT_ENV_ERROR : Nat := 2
def EXIT_CONNECTION_ERROR : Nat := 3
def EXIT_COMMAND_ERROR : Nat := 4

/-- What the response-handling tail of `run` (lines 79-95) produces:
an exit code plus the bytes written to stdout and stderr. -/
structure ReplyAction where
  exitCode : Nat
  stdout : List Char
  stderr : List Char
deriving DecidableEq

/-- Response interpreter of `pypr-client.rs`, lines 79-95:
`ERROR: ` responses are reported on stderr (message `trim_end`ed) with the
command-error code; `OK` responses print the trim_start of the remainder;
other non-empty responses are printed with trailing newlines normalized. -/
def interpretResponse (response : List Char) : ReplyAction :=
  match stripPfx ("ERROR: ".data) response with
  | some error_msg =>
    { exitCode := EXIT_COMMAND_ERROR
      stdout := []
      stderr := "Error: ".data ++ trimEnd error_msg ++ ['\n'] }
  | none =>
    match stripPfx ("OK".data) response with
    | some rest =>
      let output := trimStart rest
      { exitCode := EXIT_SUCCESS, stdout := output, stderr := [] }
    | none =>
      if response ≠ [] then
        { exitCode := EXIT_SUCCESS
          stdout := trimEndMatchesNL response ++ ['\n']
          stderr := [] }
      else
        { exitCode := EXIT_SUCCESS, stdout := [], stderr := [] }

/-- Message built by `pypr-client.rs` line 25: `format!("{}\n", args.join(" "))`. -/
def buildMessage (args : List (List Char)) : List Char :=
  rustJoin [' '] args ++ ['\n']

/-- Socket path built by `pypr-client.rs` line 45 (and `main.rs` line 57):
`format!("{}/hypr/{}/.pyprland.sock", runtime_dir, signature)`. -/
def endpointPath (runtime_dir signature : List Char) : List Char :=
  runtime_dir ++ "/hypr/".data ++ signature ++ "/.pyprland.sock".data

/-- Combined stderr diagnostic for a missing environment variable
(`pypr-client.rs` lines 34-35 and 40-41, two eprintln lines). -/
def envNotSetMsg : List Char :=
  ("Environment error: XDG_RUNTIME_DIR or HYPRLAND_INSTANCE_SIGNATURE not set.\n"
   ++ "Are you running under Hyprland?\n").data

/-- Stderr diagnostic for an over-long socket path (`pypr-client.rs` line 48). -/
def socketTooLongMsg : List Char :=
  "Error: Socket path too long (max 255 characters).\n".data

/-- Endpoint resolution of `pypr-client.rs` lines 33-50: read the two
environment variables (an absent variable is an error; `env::var` accepts an
empty value), build the socket path, and reject it when its byte length is
256 or more.  Failure carries the exit code and the stderr diagnostic. -/
def resolveEndpoint (runtime_dir signature : Option (List Char)) :
    Except (Nat × List Char) (List Char) :=
  match runtime_dir with
  | none => Except.error (EXIT_ENV_ERROR, envNotSetMsg)
  | some rd =>
    match signature with
    | none => Except.error (EXIT_ENV_ERROR, envNotSetMsg)
    | some sg =>
      let socket_path := endpointPath rd sg
      if 256 ≤ utf8Len socket_path then
        Except.error (EXIT_ENV_ERROR, socketTooLongMsg)
      else
        Except.ok socket_path

/-- Observable side effects of one client invocation, in program order. -/
inductive Effect where
  | envRead (name : List Char)
  | connect (path : List Char)
  | send (msg : List Char)
  | shutdownWrite
  | readAll
deriving DecidableEq

def xdgName : List Char := "XDG_RUNTIME_DIR".data
def sigName : List Char := "HYPRLAND_INSTANCE_SIGNATURE".data

/-- Environment reads performed before the code following line 43 runs:
`XDG_RUNTIME_DIR` is read first; `HYPRLAND_INSTANCE_SIGNATURE` is only read
when the first read succeeded. -/
def envReadEffects (runtime_dir : Option (List Char)) : List Effect :=
  match runtime_dir with
  | none => [Effect.envRead xdgName]
  | some _ => [Effect.envRead xdgName, Effect.envRead sigName]

/-- Oracle for the transport steps of `pypr-client.rs` (lines 53-76):
which of connect / write / shutdown / read fails first, or the full
response read until end of stream. -/
inductive TransportResult where
  | connectFail
  | writeFail
  | shutdownFail
  | readFail
  | response (r : List Char)
deriving DecidableEq

/-- Exit code, stdout, stderr and effect trace of one whole invocation. -/
structure RunOutput where
  exitCode : Nat
  stdout : List Char
  stderr : List Char
  effects : List Effect
deriving DecidableEq

/-- Usage hint printed by `pypr-client.rs` lines 18-20 (three eprintln lines). -/
def usageMsg : List Char :=
  ("No command provided.\n"
   ++ "Usage: pypr <command> [args...]\n"
   ++ "Try \x27pypr help\x27 for available commands.\n").data

/-- Stderr diagnostic for an over-long command message (`pypr-client.rs` line 28). -/
def tooLongMsg : List Char :=
  "Error: Command too long (max 1022 characters).\n".data

/-- Stderr diagnostic for a failed connect (`pypr-client.rs` lines 54-55). -/
def connectFailMsg (socket_path : List Char) : List Char :=
  "Cannot connect to pyprland daemon at ".data ++ socket_path ++
  (".\n" ++ "Is the daemon running? Start it with: pypr (no arguments)\n").data

/-- The function `run` of `pypr-client.rs` (lines 13-96), as a total function
of the argument list (program name already skipped), the two environment
variables, and the transport oracle. -/
def run (args : List (List Char)) (runtime_dir signature : Option (List Char))
    (t : TransportResult) : RunOutput :=
  if args = [] then
    { exitCode := EXIT_USAGE_ERROR, stdout := [], stderr := usageMsg, effects := [] }
  else
    let message := buildMessage args
    if 1024 < utf8Len message then
      { exitCode := EXIT_USAGE_ERROR, stdout := [], stderr := tooLongMsg, effects := [] }
    else
      match resolveEndpoint runtime_dir signature with
      | Except.error e =>
        { exitCode := e.1, stdout := [], stderr := e.2
          effects := envReadEffects runtime_dir }
      | Except.ok socket_path =>
        let pre := envReadEffects runtime_dir ++ [Effect.connect socket_path]
        match t with
        | TransportResult.connectFail =>
          { exitCode := EXIT_CONNECTION_ERROR, stdout := []
            stderr := connectFailMsg socket_path, effects := pre }
        | TransportResult.writeFail =>
          { exitCode := EXIT_CONNECTION_ERROR, stdout := []
            stderr := "Error: Failed to send command to daemon.\n".data
            effects := pre ++ [Effect.send message] }
        | TransportResult.shutdownFail =>
          { exitCode := EXIT_CONNECTION_ERROR, stdout := []
            stderr := "Error: Failed to complete command transmission.\n".data
            effects := pre ++ [Effect.send message, Effect.shutdownWrite] }
        | TransportResult.readFail =>
          { exitCode := EXIT_CONNECTION_ERROR, stdout := []
            stderr := "Error: Failed to read response from daemon.\n".data
            effects := pre ++ [Effect.send message, Effect.shutdownWrite, Effect.readAll] }
        | TransportResult.response r =>
          let pr := interpretResponse r
          { exitCode := pr.exitCode, stdout := pr.stdout, stderr := pr.stderr
            effects := pre ++ [Effect.send message, Effect.shutdownWrite, Effect.readAll] }

/-- True when the invocation attempted a socket connection. -/
def attemptsConnect (o : RunOutput) : Bool :=
  o.effects.any fun e =>
    match e with
    | Effect.connect _ => true
    | _ => false

/-- The static help catalogue of `pypr-rs/src/main.rs` (raw string, lines 16-41). -/
def rsHelpText : List Char :=
  ("\nSyntax: pypr-client [command]\n\nAvailable commands:\n"
   ++ "exit                 Exit the daemon.\n"
   ++ "help                 Show this help.\n"
   ++ "reload               Load the configuration (new plugins will be added & config updated). [pyprland]\n"
   ++ "toggle_special       [name] Toggles switching the focused window to the special workspace \"name\" (default: minimized). [toggle_special]\n"
   ++ "attract_lost         Brings lost floating windows to the current workspace. [lost_windows]\n"
   ++ "shift_monitors       <+1/-1> Swaps monitors\x27 workspaces in the given direction. [shift_monitors]\n"
   ++ "toggle_dpms          Toggle dpms on/off for every monitor. [toggle_dpms]\n"
   ++ "zoom                 [factor] zooms to \"factor\" or toggles zoom level if factor is omitted. [magnify]\n"
   ++ "expose               Expose every client on the active workspace. [expose]\n"
   ++ "bar                  Start gBar on the first available monitor. [menubar]\n"
   ++ "change_workspace     <+1/-1> Switch workspaces of current monitor, avoiding displayed workspaces. [workspaces_follow_focus]\n"
   ++ "fetch_client_menu    Select a client window and move it to the active workspace. [fetch_client_menu]\n"
   ++ "unfetch_client       Return a window back to its origin. [fetch_client_menu]\n"
   ++ "layout_center        <toggle|next|prev> turn on/off or change the active window. [layout_center]\n"
   ++ "relayout             Recompute & apply every monitors\x27s layout. [monitors]\n"
   ++ "attach               Attach the focused window to the last focused scratchpad. [scratchpads]\n"
   ++ "hide                 <name> hides scratchpad \"name\". [scratchpads]\n"
   ++ "show                 <name> shows scratchpad \"name\". [scratchpads]\n"
   ++ "toggle               <name> toggles visibility of scratchpad \"name\". [scratchpads]\n"
   ++ "menu                 [name] Shows the menu, if \"name\" is provided, will only show this sub-menu. [shortcuts_menu]\n"
   ++ "wall                 <next|clear> skip the current background image or stop displaying it. [wallpapers]\n").data

/-- Stderr message of `pypr-rs/src/main.rs` line 10 for a missing command. -/
def noCommandMsg : List Char :=
  "No command passed! Try \x27help\x27\n".data

/-- Transport oracle for the write-only client (`pypr-rs/src/main.rs`,
lines 60-72): connect or write may fail with an OS error text, otherwise
the single write succeeds and the process ends. -/
inductive RsTransport where
  | connectFail (err : List Char)
  | writeFail (err : List Char)
  | okWrite
deriving DecidableEq

/-- The function `main` of `pypr-rs/src/main.rs` (lines 6-73), as a total
function of the full argv (program name included, as in `env::args()`),
the two environment variables, and the transport oracle.  Note: this
variant exits 0 when no command is passed, exits 1 on every failure,
appends no newline to the message, and never reads a response. -/
def pyprRsMain (argv : List (List Char)) (runtime_dir signature : Option (List Char))
    (t : RsTransport) : RunOutput :=
  if argv.length < 2 then
    { exitCode := 0, stdout := [], stderr := noCommandMsg, effects := [] }
  else if argv.getD 1 [] = "help".data then
    { exitCode := 0, stdout := rsHelpText ++ ['\n'], stderr := [], effects := [] }
  else
    match runtime_dir with
    | none =>
      { exitCode := 1, stdout := []
        stderr := "Error: XDG_RUNTIME_DIR environment variable not set\n".data
        effects := [Effect.envRead xdgName] }
    | some rd =>
      match signature with
      | none =>
        { exitCode := 1, stdout := []
          stderr := "Error: HYPRLAND_INSTANCE_SIGNATURE environment variable not set\n".data
          effects := [Effect.envRead xdgName, Effect.envRead sigName] }
      | some sg =>
        let socket_path := endpointPath rd sg
        let message := rustJoin [' '] (argv.drop 1)
        match t with
        | RsTransport.connectFail err =>
          { exitCode := 1, stdout := []
            stderr := "Error connecting to socket ".data ++ socket_path ++ ": ".data
              ++ err ++ ['\n']
            effects := [Effect.envRead xdgName, Effect.envRead sigName,
              Effect.connect socket_path] }
        | RsTransport.writeFail err =>
          { exitCode := 1, stdout := []
            stderr := "Error writing to socket: ".data ++ err ++ ['\n']
            effects := [Effect.envRead xdgName, Effect.envRead sigName,
              Effect.connect socket_path, Effect.send message] }
        | RsTransport.okWrite =>
          { exitCode := 0, stdout := [], stderr := []
            effects := [Effect.envRead xdgName, Effect.envRead sigName,
              Effect.connect socket_path, Effect.send message] }

/-! ## Helper lemmas -/

theorem stripPfx_eq_some (p : List Char) :
    ∀ s t : List Char, stripPfx p s = some t ↔ s = p ++ t := by
  induction p with
  | nil =>
    intro s t
    simp [stripPfx]
  | cons c cs ih =>
    intro s t
    cases s with
    | nil => simp [stripPfx]
    | cons d ds =>
      by_cases h : c = d
      · subst h
        simp [stripPfx, ih]
      · simp only [stripPfx, if_neg h, List.cons_append]
        constructor
        · intro hfalse
          exact absurd hfalse (by simp)
        · intro heq
          exact absurd (List.head_eq_of_cons_eq heq).symm h

theorem startsWith_iff (p s : List Char) :
    startsWith p s = true ↔ ∃ t, s = p ++ t := by
  constructor
  · intro h
    obtain ⟨t, ht⟩ := Option.isSome_iff_exists.mp h
    exact ⟨t, (stripPfx_eq_some p s t).mp ht⟩
  · intro ⟨t, ht⟩
    have := (stripPfx_eq_some p s t).mpr ht
    simp [startsWith, this]

theorem resolveEndpoint_error_code (rd sg : Option (List Char)) (e : Nat × List Char)
    (h : resolveEndpoint rd sg = Except.error e) : e.1 = EXIT_ENV_ERROR := by
  cases rd with
  | none =>
    simp [resolveEndpoint] at h
    rw [← h]
  | some r =>
    cases sg with
    | none =>
      simp [resolveEndpoint] at h
      rw [← h]
    | some s =>
      by_cases hl : 256 ≤ utf8Len (endpointPath r s)
      · simp [resolveEndpoint, hl] at h
        rw [← h]
      · simp [resolveEndpoint, hl] at h

theorem interp_cmdErr_iff (r : List Char) :
    (interpretResponse r).exitCode = EXIT_COMMAND_ERROR ↔
      startsWith ("ERROR: ".data) r = true := by
  unfold startsWith
  cases h : stripPfx ("ERROR: ".data) r with
  | some m =>
    simp [interpretResponse, h]
  | none =>
    cases h2 : stripPfx ("OK".data) r with
    | some rest =>
      simp [interpretResponse, h, h2, EXIT_SUCCESS, EXIT_COMMAND_ERROR]
    | none =>
      by_cases hr : r = []
      · subst hr
        decide
      · simp [interpretResponse, h, h2, hr, EXIT_SUCCESS, EXIT_COMMAND_ERROR]

/-! ## Claims -/

/-- Claim C1, counterexample.  The claim says the error message surfaced on
stderr is the remainder of the response with only the trailing newline
trimmed.  At response `"ERROR: a \n"` the code trims the trailing space as
well (Rust `trim_end` removes all trailing whitespace), so the printed line
is `"Error: a"` and not `"Error: a "` as the claim predicts. -/
theorem c1_counterexample :
    (interpretResponse ("ERROR: a \n".data)).stderr ≠
      "Error: ".data ++ trimEndMatchesNL ("a \n".data) ++ ['\n'] ∧
    (interpretResponse ("ERROR: a \n".data)).stderr = "Error: a\n".data ∧
    (interpretResponse ("ERROR: a \n".data)).exitCode = EXIT_COMMAND_ERROR := by
  decide

/-- Claim C1, amended.  For every response beginning with the 7-byte
sequence `ERROR: `, the client classifies it as a command error, writes the
remainder with all trailing whitespace (newlines included) trimmed to
standard error as the error message, and exits with the command-error
code 4. -/
theorem c1_error_reported_with_trimEnd (r error_msg : List Char)
    (h : stripPfx ("ERROR: ".data) r = some error_msg) :
    interpretResponse r =
      { exitCode := EXIT_COMMAND_ERROR
        stdout := []
        stderr := "Error: ".data ++ trimEnd error_msg ++ ['\n'] } := by
  simp [interpretResponse, h]

/-- Claim C1, witness: the spec example response `"ERROR: plugin not found\n"`. -/
theorem c1_witness :
    interpretResponse ("ERROR: plugin not found\n".data) =
      { exitCode := EXIT_COMMAND_ERROR
        stdout := []
        stderr := "Error: ".data ++ trimEnd ("plugin not found\n".data) ++ ['\n'] } :=
  c1_error_reported_with_trimEnd ("ERROR: plugin not found\n".data)
    ("plugin not found\n".data) (by decide)

/-- Claim C2: a response that does not begin with `ERROR: ` but begins with
`OK` has that prefix stripped, then all leading whitespace and newline
characters stripped; the (possibly empty) result is written verbatim to
standard output with no added newline, and the exit code is 0. -/
theorem c2_ok_response (r rest : List Char)
    (hne : stripPfx ("ERROR: ".data) r = none)
    (hok : stripPfx ("OK".data) r = some rest) :
    interpretResponse r =
      { exitCode := EXIT_SUCCESS, stdout := trimStart rest, stderr := [] } := by
  simp [interpretResponse, hne, hok]

/-- Claim C2, witness: the response `"OK\n"` yields exit 0 and no stdout. -/
theorem c2_witness :
    interpretResponse ("OK\n".data) =
      { exitCode := EXIT_SUCCESS, stdout := [], stderr := [] } :=
  (c2_ok_response ("OK\n".data) ("\n".data) (by decide) (by decide)).trans (by decide)

/-- A non-empty response matching neither structural prefix takes the
legacy branch of the interpreter (shared helper). -/
theorem interp_legacy_aux (r : List Char)
    (h1 : stripPfx ("ERROR: ".data) r = none)
    (h2 : stripPfx ("OK".data) r = none)
    (h3 : r ≠ []) :
    interpretResponse r =
      { exitCode := EXIT_SUCCESS, stdout := trimEndMatchesNL r ++ ['\n'], stderr := [] } := by
  simp [interpretResponse, h1, h2, h3]

/-- Claim C3: a non-empty response beginning with neither `ERROR: ` nor `OK`
is printed to standard output with all trailing newline characters trimmed
and exactly one newline appended, and the exit code is 0. -/
theorem c3_legacy_response (r : List Char)
    (h1 : stripPfx ("ERROR: ".data) r = none)
    (h2 : stripPfx ("OK".data) r = none)
    (h3 : r ≠ []) :
    interpretResponse r =
      { exitCode := EXIT_SUCCESS, stdout := trimEndMatchesNL r ++ ['\n'], stderr := [] } :=
  interp_legacy_aux r h1 h2 h3

/-- Claim C3, witness: the spec example response `"0.1.0\n"`. -/
theorem c3_witness :
    interpretResponse ("0.1.0\n".data) =
      { exitCode := EXIT_SUCCESS, stdout := "0.1.0\n".data, stderr := [] } :=
  (c3_legacy_response ("0.1.0\n".data) (by decide) (by decide) (by decide)).trans
    (by decide)

/-- Claim C4, counterexample.  The claim says endpoint resolution fails
whenever either environment value is absent or empty.  The code only checks
presence: with `XDG_RUNTIME_DIR` set to the empty string and
`HYPRLAND_INSTANCE_SIGNATURE` set to `"a"`, resolution succeeds with the
path `/hypr/a/.pyprland.sock` instead of failing. -/
theorem c4_counterexample :
    resolveEndpoint (some []) (some ("a".data)) =
      Except.ok ("/hypr/a/.pyprland.sock".data) ∧
    resolveEndpoint (some []) (some ("a".data)) ≠
      Except.error (EXIT_ENV_ERROR, envNotSetMsg) := by
  refine ⟨rfl, fun h => ?_⟩
  rw [show resolveEndpoint (some []) (some ("a".data)) =
    Except.ok ("/hypr/a/.pyprland.sock".data) from rfl] at h
  exact Except.noConfusion h

/-- Claim C4, amended.  Endpoint resolution fails with the environment-error
code 2 and a combined diagnostic naming both variables whenever either
variable is absent; a present-but-empty value is accepted, and resolution
succeeds for every pair of present values whose derived path is shorter
than 256 bytes. -/
theorem c4_env_resolution (runtime_dir signature : Option (List Char)) :
    ((runtime_dir = none ∨ signature = none) →
      resolveEndpoint runtime_dir signature =
        Except.error (EXIT_ENV_ERROR, envNotSetMsg)) ∧
    (∀ rd sg, runtime_dir = some rd → signature = some sg →
      utf8Len (endpointPath rd sg) < 256 →
      resolveEndpoint runtime_dir signature = Except.ok (endpointPath rd sg)) ∧
    containsSeq xdgName envNotSetMsg = true ∧
    containsSeq sigName envNotSetMsg = true := by
  refine ⟨?_, ?_, by decide, by decide⟩
  · intro h
    match runtime_dir, signature, h with
    | none, _, _ => rfl
    | some rd, none, _ => rfl
    | some rd, some sg, h => simp at h
  · intro rd sg hr hs hlen
    subst hr
    subst hs
    simp [resolveEndpoint, Nat.not_le.mpr hlen]

/-- Claim C4, witness: an absent variable fails with the combined
diagnostic and exit code 2; a concrete present pair resolves to the
concatenated path. -/
theorem c4_witness :
    resolveEndpoint none (some ("abc".data)) =
      Except.error (EXIT_ENV_ERROR, envNotSetMsg) ∧
    resolveEndpoint (some ("/run/user/1001".data)) (some ("sig".data)) =
      Except.ok ("/run/user/1001/hypr/sig/.pyprland.sock".data) := by
  constructor
  · exact (c4_env_resolution none (some ("abc".data))).1 (Or.inl rfl)
  · have h := (c4_env_resolution (some ("/run/user/1001".data)) (some ("sig".data))).2.1
      ("/run/user/1001".data) ("sig".data) rfl rfl (by decide)
    rw [h]
    rfl

/-- Claim C5: for every non-empty argument sequence whose space-joined form
plus newline fits in 1024 bytes, the built message is exactly
`join(args, " ") ++ "\n"` (stated with the standard `List.intercalate`, to
which the code's `join` is proved equal) with no escaping or quoting, and
that exact byte sequence is what the client sends to the daemon. -/
theorem c5_message_built_verbatim (args : List (List Char)) (h1 : args ≠ [])
    (h2 : utf8Len (buildMessage args) ≤ 1024) :
    buildMessage args = List.intercalate [' '] args ++ ['\n'] ∧
    ∀ rd sg resp, utf8Len (endpointPath rd sg) < 256 →
      Effect.send (List.intercalate [' '] args ++ ['\n']) ∈
        (run args (some rd) (some sg) (TransportResult.response resp)).effects := by
  have hjoin : ∀ xs : List (List Char), rustJoin [' '] xs = List.intercalate [' '] xs := by
    intro xs
    induction xs with
    | nil => simp [rustJoin, List.intercalate]
    | cons x rest ih =>
      cases rest with
      | nil => simp [rustJoin, List.intercalate]
      | cons y zs =>
        simp only [rustJoin, ih, List.intercalate, List.intersperse_cons₂,
          List.flatten_cons, List.append_assoc]
  have hmsg : buildMessage args = List.intercalate [' '] args ++ ['\n'] := by
    simp [buildMessage, hjoin]
  refine ⟨hmsg, ?_⟩
  intro rd sg resp hlen
  rw [← hmsg]
  simp [run, h1, Nat.not_lt.mpr h2, resolveEndpoint, Nat.not_le.mpr hlen]

/-- Claim C5, witness: a two-token command line is joined with one space
and terminated by one newline, and is sent verbatim. -/
theorem c5_witness :
    buildMessage ["toggle".data, "term".data] =
      List.intercalate [' '] ["toggle".data, "term".data] ++ ['\n'] ∧
    Effect.send (List.intercalate [' '] ["toggle".data, "term".data] ++ ['\n']) ∈
      (run ["toggle".data, "term".data] (some ("/run/user/42".data))
        (some ("abc".data)) (TransportResult.response ("OK\n".data))).effects := by
  have h := c5_message_built_verbatim ["toggle".data, "term".data]
    (by decide) (by decide)
  exact ⟨h.1, h.2 ("/run/user/42".data) ("abc".data) ("OK\n".data) (by decide)⟩

/-- Claim C6: for every pair of non-empty environment values the resolved
endpoint is the literal concatenation
`runtime_dir/hypr/signature/.pyprland.sock`; when that path is 256 bytes or
longer resolution fails with the environment-error code 2 and no connection
is ever attempted, and otherwise resolution succeeds with that path. -/
theorem c6_endpoint_concatenation (rd sg : List Char) (hr : rd ≠ []) (hs : sg ≠ []) :
    (utf8Len (endpointPath rd sg) < 256 →
      resolveEndpoint (some rd) (some sg) = Except.ok (endpointPath rd sg)) ∧
    (256 ≤ utf8Len (endpointPath rd sg) →
      resolveEndpoint (some rd) (some sg) =
        Except.error (EXIT_ENV_ERROR, socketTooLongMsg) ∧
      ∀ args t, attemptsConnect (run args (some rd) (some sg) t) = false) := by
  constructor
  · intro h
    simp [resolveEndpoint, Nat.not_le.mpr h]
  · intro h
    refine ⟨by simp [resolveEndpoint, h], ?_⟩
    intro args t
    by_cases ha : args = []
    · simp [run, ha, attemptsConnect]
    · by_cases hlen : 1024 < utf8Len (buildMessage args)
      · simp [run, ha, hlen, attemptsConnect]
      · simp [run, ha, hlen, attemptsConnect, resolveEndpoint, h, envReadEffects]

/-- Claim C6, witness: the spec example endpoint
`/run/user/1000/hypr/abc123/.pyprland.sock` (shorter than 256 bytes). -/
theorem c6_witness :
    resolveEndpoint (some ("/run/user/1000".data)) (some ("abc123".data)) =
      Except.ok ("/run/user/1000/hypr/abc123/.pyprland.sock".data) := by
  have h := (c6_endpoint_concatenation ("/run/user/1000".data) ("abc123".data)
    (by decide) (by decide)).1 (by decide)
  rw [h]
  rfl

/-- Claim C7: when the joined-plus-newline message exceeds 1024 bytes the
client fails with the usage-error code 1 and an over-length diagnostic,
with an empty effect trace — no environment read, no endpoint resolution,
no socket I/O — and the result is the same for every environment and every
transport behaviour, so the daemon is never contacted. -/
theorem c7_oversize_message_rejected_before_io (args : List (List Char))
    (runtime_dir signature : Option (List Char)) (t : TransportResult)
    (h1 : args ≠ []) (h2 : 1024 < utf8Len (buildMessage args)) :
    run args runtime_dir signature t =
      { exitCode := EXIT_USAGE_ERROR, stdout := [], stderr := tooLongMsg
        effects := [] } := by
  simp [run, h1, h2]

set_option maxRecDepth 8192 in
/-- Claim C7, witness: a single 1024-byte argument makes a 1025-byte
message, which is rejected identically under an unset environment and a
transport that would fail to connect. -/
theorem c7_witness :
    run [List.replicate 1024 'a'] none none TransportResult.connectFail =
      { exitCode := EXIT_USAGE_ERROR, stdout := [], stderr := tooLongMsg
        effects := [] } :=
  c7_oversize_message_rejected_before_io [List.replicate 1024 'a'] none none
    TransportResult.connectFail (by simp) (by decide)

/-- Claim C8: invoked with an empty command sequence, the client writes the
three-line usage hint (naming the `pypr <command> [args...]` invocation
form and pointing at the `help` command) to standard error, exits with the
usage-error code 1, and performs no effects, whatever the environment and
transport. -/
theorem c8_empty_args_usage_error (runtime_dir signature : Option (List Char))
    (t : TransportResult) :
    run [] runtime_dir signature t =
      { exitCode := EXIT_USAGE_ERROR, stdout := [], stderr := usageMsg
        effects := [] } ∧
    containsSeq ("Usage: pypr <command> [args...]".data) usageMsg = true ∧
    containsSeq ("help".data) usageMsg = true := by
  exact ⟨rfl, by decide, by decide⟩

/-- Claim C9, counterexample.  The claim says every variant of the client
exits with the usage-error status when no command is given.  The write-only
variant (`pypr-rs/src/main.rs`) prints its "No command passed" message to
standard error but then exits with status 0, not the usage-error status 1. -/
theorem c9_counterexample :
    (pyprRsMain [("pypr-client".data)] none none RsTransport.okWrite).exitCode =
      EXIT_SUCCESS ∧
    (pyprRsMain [("pypr-client".data)] none none RsTransport.okWrite).stderr =
      noCommandMsg ∧
    EXIT_SUCCESS ≠ EXIT_USAGE_ERROR := by
  decide

/-- Claim C9, amended.  With no command supplied, the structured variant
writes its usage message to standard error and exits with the usage-error
code 1; the write-only variant writes its own no-command message to
standard error but exits with status 0 (success), in both cases without
contacting the daemon. -/
theorem c9_no_command_by_variant (prog : List Char)
    (runtime_dir signature : Option (List Char)) (t : TransportResult)
    (t2 : RsTransport) :
    run [] runtime_dir signature t =
      { exitCode := EXIT_USAGE_ERROR, stdout := [], stderr := usageMsg
        effects := [] } ∧
    pyprRsMain [prog] runtime_dir signature t2 =
      { exitCode := EXIT_SUCCESS, stdout := [], stderr := noCommandMsg
        effects := [] } := by
  exact ⟨rfl, rfl⟩

/-- Claim C10: the response interpreter yields the command-error code 4
exactly when the response starts with the 7-byte sequence `ERROR: `
(space included); a response starting with `ERROR:` but lacking the space
takes the legacy branch (printed to standard output with one trailing
newline, exit 0); and at the level of the whole client, exit code 4 can
only arise from a transport response carrying that exact prefix. -/
theorem c10_commandError_iff_exact_space_pfx :
    (∀ r, (interpretResponse r).exitCode = EXIT_COMMAND_ERROR ↔
        startsWith ("ERROR: ".data) r = true) ∧
    (∀ r, startsWith ("ERROR:".data) r = true →
        startsWith ("ERROR: ".data) r = false →
        interpretResponse r =
          { exitCode := EXIT_SUCCESS, stdout := trimEndMatchesNL r ++ ['\n']
            stderr := [] }) ∧
    (∀ args runtime_dir signature t,
        (run args runtime_dir signature t).exitCode = EXIT_COMMAND_ERROR →
        ∃ resp, t = TransportResult.response resp ∧
          startsWith ("ERROR: ".data) resp = true) := by
  refine ⟨interp_cmdErr_iff, ?_, ?_⟩
  · intro r h6 h7
    obtain ⟨m, hm⟩ := (startsWith_iff ("ERROR:".data) r).mp h6
    have hnone : stripPfx ("ERROR: ".data) r = none := by
      cases hE : stripPfx ("ERROR: ".data) r with
      | some m2 =>
        rw [startsWith, hE] at h7
        simp at h7
      | none => rfl
    have hOK : stripPfx ("OK".data) r = none := by
      subst hm
      rfl
    have hne : r ≠ [] := by
      subst hm
      simp
    exact interp_legacy_aux r hnone hOK hne
  · intro args rd sg t h
    by_cases ha : args = []
    · simp [run, ha, EXIT_USAGE_ERROR, EXIT_COMMAND_ERROR] at h
    · by_cases hlen : 1024 < utf8Len (buildMessage args)
      · simp [run, ha, hlen, EXIT_USAGE_ERROR, EXIT_COMMAND_ERROR] at h
      · simp only [run, if_neg ha, if_pos, if_neg hlen] at h
        cases hres : resolveEndpoint rd sg with
        | error e =>
          rw [hres] at h
          simp at h
          have := resolveEndpoint_error_code rd sg e hres
          rw [this] at h
          simp [EXIT_ENV_ERROR, EXIT_COMMAND_ERROR] at h
        | ok socket_path =>
          rw [hres] at h
          cases t with
          | connectFail =>
            simp [EXIT_CONNECTION_ERROR, EXIT_COMMAND_ERROR] at h
          | writeFail =>
            simp [EXIT_CONNECTION_ERROR, EXIT_COMMAND_ERROR] at h
          | shutdownFail =>
            simp [EXIT_CONNECTION_ERROR, EXIT_COMMAND_ERROR] at h
          | readFail =>
            simp [EXIT_CONNECTION_ERROR, EXIT_COMMAND_ERROR] at h
          | response resp =>
            simp at h
            exact ⟨resp, rfl, (interp_cmdErr_iff resp).mp h⟩

/-- Claim C10, witness: the response `"ERROR:plugin not found"` (no space
after the colon) is not a command error — it is printed on standard output
via the legacy branch and the exit code is 0. -/
theorem c10_witness :
    interpretResponse ("ERROR:plugin not found".data) =
      { exitCode := EXIT_SUCCESS, stdout := "ERROR:plugin not found\n".data
        stderr := [] } :=
  ((c10_commandError_iff_exact_space_pfx.2.1 ("ERROR:plugin not found".data)
    (by decide) (by decide)).trans (by decide))

end Pypr
